import Mathlib

/-!
Verification of the deterministic scoring pipeline of
`src/backend/controllers/writing_controller.py` (english_learn repository).

The Python module is shallowly embedded: numeric values (Python floats holding
score/penalty arithmetic) are modelled as exact rationals `ℚ`, strings from the
source as `List Char` (error messages as `String`), Python dicts with fixed keys
as structures with `Option` fields for possibly-missing keys, the database
session as an explicit state record threaded through the operations, and raised
exceptions as `Except` values.
-/

namespace WritingCtrl

/-- `CREDITS_PER_ANALYSIS = 1` (line 12). -/
def CREDITS_PER_ANALYSIS : ℤ := 1

/-- Python's built-in `round(x, 1)` on an exactly-representable value:
round half to even at integer resolution. -/
def bankersRound (q : ℚ) : ℤ :=
  let f : ℤ := ⌊q⌋
  let r : ℚ := q - (f : ℚ)
  if r < 1/2 then f
  else if 1/2 < r then f + 1
  else if f % 2 = 0 then f else f + 1

/-- Python's `round(x, 1)`: round to one decimal place, half to even. -/
def pyRound1 (q : ℚ) : ℚ := (bankersRound (q * 10) : ℚ) / 10

/-- `calculate_overall_score(scores)` (lines 14-16): `round(sum(scores) / len(scores), 1)`. -/
def calculate_overall_score (scores : List ℚ) : ℚ :=
  pyRound1 (scores.sum / (scores.length : ℚ))

/-- `calculate_word_count_penalty(word_count, task_type)` (lines 18-27). -/
def calculate_word_count_penalty (word_count : ℕ) (task_type : List Char) : ℚ :=
  let min_words : ℕ := if task_type = "task1".toList then 150 else 250
  if word_count ≥ min_words then 0
  else
    let words_short : ℕ := min_words - word_count
    let penalty : ℚ := ((words_short : ℚ) / 25) * 0.5
    min penalty 2.0

/-- `calculate_time_penalty(time_spent, task_type)` (lines 29-44).  `time_spent`
is `None` or a number of seconds; `if not time_spent` is true for `None` and `0`. -/
def calculate_time_penalty (time_spent : Option ℚ) (task_type : List Char) : ℚ :=
  match time_spent with
  | none => 0
  | some t =>
    if t = 0 then 0
    else
      let time_limit : ℚ := if task_type = "task1".toList then 20 else 40
      let time_limit_seconds : ℚ := time_limit * 60
      if t ≤ time_limit_seconds then 0
      else
        let minutes_over : ℚ := (t - time_limit_seconds) / 60
        min (minutes_over * 0.1) 1.0

/-- Reduction of the word-count penalty for a task1 submission. -/
lemma cwcp_task1_red (wc : ℕ) :
    calculate_word_count_penalty wc "task1".toList
      = if 150 ≤ wc then 0 else min ((((150 - wc : ℕ) : ℚ) / 25) * 0.5) 2.0 := rfl

/-- Reduction of the word-count penalty for any non-task1 variant. -/
lemma cwcp_not_task1_red (wc : ℕ) (t : List Char) (h : ¬ (t = "task1".toList)) :
    calculate_word_count_penalty wc t
      = if 250 ≤ wc then 0 else min ((((250 - wc : ℕ) : ℚ) / 25) * 0.5) 2.0 := by
  simp only [calculate_word_count_penalty, if_neg h, ge_iff_le]

/-- C1: For every wordCount and task variant, the word-count penalty is 0 when
wordCount is at least the variant minimum (150 for task1, 250 for task2), and
otherwise equals (minimum - wordCount) / 25 * 0.5 capped at 2.0; in particular,
for task1 at wordCount=100 it is exactly 1.0 and at wordCount=0 it is exactly 2.0. -/
theorem c1_word_count_penalty :
    (∀ wc : ℕ,
      (150 ≤ wc → calculate_word_count_penalty wc "task1".toList = 0) ∧
      (wc < 150 → calculate_word_count_penalty wc "task1".toList
          = min ((((150 - wc : ℕ) : ℚ) / 25) * 0.5) 2.0)) ∧
    (∀ wc : ℕ,
      (250 ≤ wc → calculate_word_count_penalty wc "task2".toList = 0) ∧
      (wc < 250 → calculate_word_count_penalty wc "task2".toList
          = min ((((250 - wc : ℕ) : ℚ) / 25) * 0.5) 2.0)) ∧
    calculate_word_count_penalty 100 "task1".toList = 1 ∧
    calculate_word_count_penalty 0 "task1".toList = 2 := by
  have h2 : ¬ ("task2".toList = "task1".toList) := by decide
  refine ⟨fun wc => ⟨fun h => ?_, fun h => ?_⟩, fun wc => ⟨fun h => ?_, fun h => ?_⟩, ?_, ?_⟩
  · rw [cwcp_task1_red, if_pos h]
  · rw [cwcp_task1_red, if_neg (by omega)]
  · rw [cwcp_not_task1_red wc _ h2, if_pos h]
  · rw [cwcp_not_task1_red wc _ h2, if_neg (by omega)]
  · rw [cwcp_task1_red, if_neg (by omega)]
    norm_num [min_def]
  · rw [cwcp_task1_red, if_neg (by omega)]
    norm_num [min_def]

/-- Witness for C1: concrete instantiations discharging each hypothesis. -/
theorem c1_word_count_penalty_witness :
    calculate_word_count_penalty 200 "task1".toList = 0 ∧
    calculate_word_count_penalty 100 "task1".toList
      = min ((((150 - 100 : ℕ) : ℚ) / 25) * 0.5) 2.0 ∧
    calculate_word_count_penalty 300 "task2".toList = 0 ∧
    calculate_word_count_penalty 0 "task2".toList
      = min ((((250 - 0 : ℕ) : ℚ) / 25) * 0.5) 2.0 :=
  ⟨(c1_word_count_penalty.1 200).1 (by omega),
   (c1_word_count_penalty.1 100).2 (by omega),
   (c1_word_count_penalty.2.1 300).1 (by omega),
   (c1_word_count_penalty.2.1 0).2 (by omega)⟩

/-- Reduction of the time penalty for a task1 submission with a nonzero time value. -/
lemma ctp_task1_red (ts : ℚ) (hz : ¬ (ts = 0)) :
    calculate_time_penalty (some ts) "task1".toList
      = if ts ≤ 20 * 60 then 0 else min (((ts - 20 * 60) / 60) * 0.1) 1.0 := by
  have hred : calculate_time_penalty (some ts) "task1".toList
      = if ts = 0 then 0
        else if ts ≤ 20 * 60 then 0 else min (((ts - 20 * 60) / 60) * 0.1) 1.0 := rfl
  rw [hred, if_neg hz]

/-- Reduction of the time penalty for any non-task1 variant with a nonzero time value. -/
lemma ctp_not_task1_red (ts : ℚ) (t : List Char) (hz : ¬ (ts = 0))
    (h : ¬ (t = "task1".toList)) :
    calculate_time_penalty (some ts) t
      = if ts ≤ 40 * 60 then 0 else min (((ts - 40 * 60) / 60) * 0.1) 1.0 := by
  simp only [calculate_time_penalty, if_neg hz, if_neg h]

/-- C2: For every time input and task variant, the time penalty is 0 when the
time is absent/unset or when timeSpent is at most the variant limit (20 minutes
for task1, 40 minutes for task2), and otherwise equals minutes-over-the-limit
* 0.1 capped at 1.0; in particular, for task2 with timeSpent=3000 seconds it is
exactly 1.0. -/
theorem c2_time_penalty :
    (∀ t : List Char, calculate_time_penalty none t = 0) ∧
    (∀ ts : ℚ,
      (ts ≤ 1200 → calculate_time_penalty (some ts) "task1".toList = 0) ∧
      (1200 < ts → calculate_time_penalty (some ts) "task1".toList
          = min (((ts - 1200) / 60) * 0.1) 1.0)) ∧
    (∀ ts : ℚ,
      (ts ≤ 2400 → calculate_time_penalty (some ts) "task2".toList = 0) ∧
      (2400 < ts → calculate_time_penalty (some ts) "task2".toList
          = min (((ts - 2400) / 60) * 0.1) 1.0)) ∧
    calculate_time_penalty (some 3000) "task2".toList = 1 := by
  have h2 : ¬ ("task2".toList = "task1".toList) := by decide
  refine ⟨fun t => rfl, fun ts => ⟨fun h => ?_, fun h => ?_⟩,
    fun ts => ⟨fun h => ?_, fun h => ?_⟩, ?_⟩
  · by_cases hz : ts = 0
    · simp only [calculate_time_penalty, if_pos hz]
    · rw [ctp_task1_red ts hz, if_pos (by linarith)]
  · have hz : ¬ (ts = 0) := by intro hz; rw [hz] at h; norm_num at h
    rw [ctp_task1_red ts hz, if_neg (by intro hc; linarith)]
    norm_num
  · by_cases hz : ts = 0
    · simp only [calculate_time_penalty, if_pos hz]
    · rw [ctp_not_task1_red ts _ hz h2, if_pos (by linarith)]
  · have hz : ¬ (ts = 0) := by intro hz; rw [hz] at h; norm_num at h
    rw [ctp_not_task1_red ts _ hz h2, if_neg (by intro hc; linarith)]
    norm_num
  · have hz : ¬ ((3000 : ℚ) = 0) := by norm_num
    rw [ctp_not_task1_red 3000 _ hz h2, if_neg (by norm_num)]
    norm_num [min_def]

/-- Witness for C2: concrete instantiations discharging each hypothesis. -/
theorem c2_time_penalty_witness :
    calculate_time_penalty (some 600) "task1".toList = 0 ∧
    calculate_time_penalty (some 1800) "task1".toList
      = min ((((1800 : ℚ) - 1200) / 60) * 0.1) 1.0 ∧
    calculate_time_penalty (some 2400) "task2".toList = 0 ∧
    calculate_time_penalty (some 3000) "task2".toList
      = min ((((3000 : ℚ) - 2400) / 60) * 0.1) 1.0 :=
  ⟨(c2_time_penalty.2.1 600).1 (by norm_num),
   (c2_time_penalty.2.1 1800).2 (by norm_num),
   (c2_time_penalty.2.2.1 2400).1 (by norm_num),
   (c2_time_penalty.2.2.1 3000).2 (by norm_num)⟩

/-- C10: For every task variant string other than exactly 'task1' (including
unrecognized variants such as 'task3'), both penalty calculators apply the
task2 thresholds: `calculate_word_count_penalty` uses the 250-word minimum and
`calculate_time_penalty` uses the 40-minute limit. -/
theorem c10_non_task1_uses_task2_thresholds (wc : ℕ) (ts : Option ℚ) (t : List Char)
    (h : t ≠ "task1".toList) :
    calculate_word_count_penalty wc t = calculate_word_count_penalty wc "task2".toList ∧
    calculate_time_penalty ts t = calculate_time_penalty ts "task2".toList := by
  have h2 : ¬ ("task2".toList = "task1".toList) := by decide
  constructor
  · simp only [calculate_word_count_penalty, if_neg h, if_neg h2]
  · cases ts with
    | none => rfl
    | some v => simp only [calculate_time_penalty, if_neg h, if_neg h2]

/-- Witness for C10: the unrecognized variant 'task3' gets the task2 thresholds. -/
theorem c10_non_task1_uses_task2_thresholds_witness :
    calculate_word_count_penalty 0 "task3".toList
      = calculate_word_count_penalty 0 "task2".toList ∧
    calculate_time_penalty (some 3000) "task3".toList
      = calculate_time_penalty (some 3000) "task2".toList :=
  c10_non_task1_uses_task2_thresholds 0 (some 3000) "task3".toList (by decide)

/-- A highlight span as built at lines 66-70 of the source: start offset, end
offset, and the matched text (the dict keys `start`, `end`, `text`). -/
structure Span where
  start : Nat
  «end» : Nat
  text : List Char
deriving DecidableEq, Repr

/-- A correction entry.  `original` models `correction.get('original', '')`
(a missing key becomes `[]`); `payload` stands for the remaining
category-specific fields, which `correction.copy()` carries along unchanged;
`positions` is the optional highlight-span field (absent on analyzer output). -/
structure Correction where
  original : List Char
  payload : Nat
  positions : Option (List Span)
deriving DecidableEq, Repr

/-- The corrections dict with its three category keys (a category key missing
from the input dict behaves like an empty list, as the source then keeps the
initialized `[]` for that category). -/
structure Corrections where
  grammar : List Correction
  vocabulary : List Correction
  «structure» : List Correction
deriving DecidableEq, Repr

/-- `pat` occurs in `s` at offset `i`. -/
def occursAt (s pat : List Char) (i : Nat) : Bool := List.isPrefixOf pat (s.drop i)

/-- Python's `essay_text.find(original_text, start)` (line 63) for a nonempty
needle: the least offset `≥ start` at which `pat` occurs, `none` for `-1`. -/
def pyFind (s pat : List Char) (start : Nat) : Option Nat :=
  ((List.range (s.length + 1)).filter fun i => decide (start ≤ i) && occursAt s pat i).head?

/-- The `while True` search loop of lines 60-71, with explicit fuel: each
iteration advances `start` past the previous match start, so `s.length + 1`
rounds always suffice. -/
def findLoopGo (s pat : List Char) : Nat → Nat → List Nat
  | 0, _ => []
  | fuel + 1, start =>
    match pyFind s pat start with
    | none => []
    | some pos => pos :: findLoopGo s pat fuel (pos + 1)

/-- The match offsets collected by the search loop, as spans (lines 60-71). -/
def findPositions (s pat : List Char) : List Span :=
  (findLoopGo s pat (s.length + 1) 0).map fun p => ⟨p, p + pat.length, pat⟩

/-- The per-entry body of the loop at lines 56-80; `isStructure` is whether the
category being iterated is `'structure'`. -/
def processCorrection (essay : List Char) (isStructure : Bool) (c : Correction) : Correction :=
  if c.original ≠ [] ∧ isStructure = false then
    let positions := findPositions essay c.original
    if positions ≠ [] then { c with positions := some positions }
    else c
  else c

/-- `find_text_positions(essay_text, corrections)` (lines 46-82). -/
def find_text_positions (essay : List Char) (cs : Corrections) : Corrections where
  grammar := cs.grammar.map (processCorrection essay false)
  vocabulary := cs.vocabulary.map (processCorrection essay false)
  «structure» := cs.«structure».map (processCorrection essay true)

/-- The spans of every occurrence of `pat` in `s`, in increasing offset order —
the spec's description of the resolved positions of one entry. -/
def specAllSpans (s pat : List Char) : List Span :=
  ((List.range (s.length + 1)).filter (occursAt s pat)).map fun p => ⟨p, p + pat.length, pat⟩

/-- Modelled from the spec's wording of 4.2: an entry with a nonempty `original`
that occurs in the essay gains a `positions` field holding the ordered list of
all occurrence spans; otherwise the entry is passed through unchanged. -/
def specResolveEntry (essay : List Char) (c : Correction) : Correction :=
  if c.original ≠ [] ∧ specAllSpans essay c.original ≠ [] then
    { c with positions := some (specAllSpans essay c.original) }
  else c

/-- The filtered range of candidate offsets is strictly increasing. -/
lemma occs_pairwise (s pat : List Char) :
    ((List.range (s.length + 1)).filter (occursAt s pat)).Pairwise (· < ·) :=
  List.Pairwise.filter _ (List.pairwise_lt_range _)

/-- Peeling the least element off a lower-bounded filter of a strictly
increasing list of naturals. -/
lemma filter_ge_head_decomp {l : List Nat} (hl : l.Pairwise (· < ·)) (start p : Nat)
    (h : (l.filter fun i => decide (start ≤ i)).head? = some p) :
    start ≤ p ∧
      l.filter (fun i => decide (start ≤ i)) = p :: l.filter fun i => decide (p + 1 ≤ i) := by
  induction l with
  | nil => simp at h
  | cons x xs ih =>
    rw [List.pairwise_cons] at hl
    obtain ⟨hx, hxs⟩ := hl
    by_cases hs : start ≤ x
    · rw [List.filter_cons_of_pos (by simpa using hs)] at h ⊢
      simp only [List.head?_cons, Option.some.injEq] at h
      subst h
      refine ⟨hs, ?_⟩
      rw [List.filter_cons_of_neg (by simp)]
      congr 1
      apply List.filter_congr
      intro a ha
      have hxa : x < a := hx a ha
      simp only [decide_eq_decide]
      omega
    · rw [List.filter_cons_of_neg (by simpa using hs)] at h ⊢
      obtain ⟨hsp, heq⟩ := ih hxs h
      refine ⟨hsp, ?_⟩
      rw [heq, List.filter_cons_of_neg (by simp only [decide_eq_true_eq]; omega)]

/-- The search loop collects exactly the lower-bounded occurrences, given
enough fuel. -/
lemma findLoopGo_eq (s pat : List Char) :
    ∀ fuel start, s.length + 1 ≤ fuel + start →
      findLoopGo s pat fuel start
        = ((List.range (s.length + 1)).filter (occursAt s pat)).filter
            fun i => decide (start ≤ i) := by
  intro fuel
  induction fuel with
  | zero =>
    intro start h
    rw [findLoopGo]
    symm
    rw [List.filter_eq_nil_iff]
    intro a ha
    have h1 : a ∈ List.range (s.length + 1) := List.mem_of_mem_filter ha
    have h2 : a < s.length + 1 := List.mem_range.mp h1
    simp only [decide_eq_true_eq]
    omega
  | succ fuel ih =>
    intro start h
    have hbridge : pyFind s pat start
        = (((List.range (s.length + 1)).filter (occursAt s pat)).filter
            fun i => decide (start ≤ i)).head? := by
      unfold pyFind
      rw [List.filter_filter]
    rw [findLoopGo]
    cases hf : pyFind s pat start with
    | none =>
      rw [hbridge, List.head?_eq_none_iff] at hf
      rw [hf]
    | some p =>
      rw [hbridge] at hf
      obtain ⟨hsp, heq⟩ := filter_ge_head_decomp (occs_pairwise s pat) start p hf
      have hp_mem : p ∈ (List.range (s.length + 1)).filter (occursAt s pat) := by
        have : p ∈ ((List.range (s.length + 1)).filter (occursAt s pat)).filter
            (fun i => decide (start ≤ i)) := by
          rw [heq]; exact List.mem_cons_self _ _
        exact List.mem_of_mem_filter this
      have hplt : p < s.length + 1 := List.mem_range.mp (List.mem_of_mem_filter hp_mem)
      rw [heq]
      show p :: findLoopGo s pat fuel (p + 1) = _
      rw [ih (p + 1) (by omega)]

/-- The operational search loop finds exactly the spans of all occurrences. -/
lemma findPositions_eq (s pat : List Char) : findPositions s pat = specAllSpans s pat := by
  unfold findPositions specAllSpans
  rw [findLoopGo_eq s pat (s.length + 1) 0 (by omega)]
  congr 1
  rw [List.filter_eq_self]
  intro a _
  simp

/-- A grammar/vocabulary entry is processed exactly as the spec describes. -/
lemma processCorrection_false_eq (essay : List Char) (c : Correction) :
    processCorrection essay false c = specResolveEntry essay c := by
  unfold processCorrection specResolveEntry
  rw [findPositions_eq]
  by_cases h1 : c.original ≠ []
  · by_cases h2 : specAllSpans essay c.original ≠ []
    · rw [if_pos ⟨h1, rfl⟩, if_pos h2, if_pos ⟨h1, h2⟩]
    · rw [if_pos ⟨h1, rfl⟩, if_neg h2, if_neg fun hc => h2 hc.2]
  · rw [if_neg fun hc => h1 hc.1, if_neg fun hc => h1 hc.1]

/-- A structure entry is never changed. -/
lemma processCorrection_true_eq (essay : List Char) (c : Correction) :
    processCorrection essay true c = c := by
  unfold processCorrection
  rw [if_neg]
  intro hc
  exact absurd hc.2 (by simp)

/-- C3: For every essay text and every grammar or vocabulary correction entry,
the text-position resolver finds the occurrences of the entry's `original`
substring by repeated literal forward search resuming one character after each
prior match start (equivalently: every occurrence offset, in increasing order);
if at least one occurrence is found the entry is replaced by a copy carrying a
`positions` field with the ordered spans (start, start + length of matched
text, matched text); if zero occurrences are found the entry is passed through
unchanged with no `positions` field; a structure entry never gains a
`positions` field; and on essay "the cat sat on the mat" with original "the"
the spans are exactly (0,3) and (15,18). -/
theorem c3_find_text_positions (essay : List Char) (cs : Corrections) :
    find_text_positions essay cs
      = { grammar := cs.grammar.map (specResolveEntry essay)
          vocabulary := cs.vocabulary.map (specResolveEntry essay)
          «structure» := cs.«structure» } ∧
    findPositions "the cat sat on the mat".toList "the".toList
      = [⟨0, 3, "the".toList⟩, ⟨15, 18, "the".toList⟩] ∧
    specAllSpans "the cat sat on the mat".toList "the".toList
      = [⟨0, 3, "the".toList⟩, ⟨15, 18, "the".toList⟩] := by
  refine ⟨?_, by decide, by decide⟩
  unfold find_text_positions
  have hg : cs.grammar.map (processCorrection essay false)
      = cs.grammar.map (specResolveEntry essay) :=
    congrArg (fun f => List.map f cs.grammar) (funext fun c => processCorrection_false_eq essay c)
  have hv : cs.vocabulary.map (processCorrection essay false)
      = cs.vocabulary.map (specResolveEntry essay) :=
    congrArg (fun f => List.map f cs.vocabulary) (funext fun c => processCorrection_false_eq essay c)
  have hs : cs.«structure».map (processCorrection essay true) = cs.«structure» := by
    have : cs.«structure».map (processCorrection essay true) = cs.«structure».map id :=
      congrArg (fun f => List.map f cs.«structure»)
        (funext fun c => processCorrection_true_eq essay c)
    rw [this, List.map_id]
  rw [hg, hv, hs]

/-- Error values raised by the controller: Python `ValueError` versus a plain
`Exception`. -/
inductive Err where
  | valueError (msg : String)
  | exception (msg : String)
deriving DecidableEq, Repr

/-- The four criterion scores of a validated analyzer response. -/
structure Scores where
  task_achievement : ℚ
  coherence_cohesion : ℚ
  lexical_resource : ℚ
  grammatical_range : ℚ
deriving DecidableEq, Repr

/-- The four per-criterion feedback strings of a validated analyzer response. -/
structure Feedback where
  task_achievement : String
  coherence_cohesion : String
  lexical_resource : String
  grammatical_range : String
deriving DecidableEq, Repr

/-- A validated analyzer result. -/
structure Analysis where
  scores : Scores
  feedback : Feedback
  corrections : Corrections
deriving DecidableEq, Repr

/-- The `scores` dict of a parsed GPT response before validation: each expected
key may be missing. -/
structure RawScores where
  task_achievement : Option ℚ
  coherence_cohesion : Option ℚ
  lexical_resource : Option ℚ
  grammatical_range : Option ℚ
deriving DecidableEq, Repr

/-- The `feedback` dict of a parsed GPT response before validation. -/
structure RawFeedback where
  task_achievement : Option String
  coherence_cohesion : Option String
  lexical_resource : Option String
  grammatical_range : Option String
deriving DecidableEq, Repr

/-- A parsed GPT response before validation: each top-level key may be missing. -/
structure RawResult where
  scores : Option RawScores
  feedback : Option RawFeedback
  corrections : Option Corrections
deriving DecidableEq, Repr

/-- Outcome of the external GPT call in `analyze_essay` (lines 161-172): the
transport/service call may fail, the content may fail to parse as JSON, or it
parses into a `RawResult`. -/
inductive GptOutcome where
  | transportErr (msg : String)
  | parseErr
  | ok (result : RawResult)
deriving DecidableEq, Repr

/-- The shape checks of lines 174-187, returning the message of the
`ValueError` raised by the failing check, or the validated analysis. -/
def validateResult (r : RawResult) : Except String Analysis :=
  match r.scores, r.feedback, r.corrections with
  | some s, some f, some c =>
    match s.task_achievement, s.coherence_cohesion, s.lexical_resource, s.grammatical_range with
    | some ta, some cc, some lr, some gr =>
      match f.task_achievement, f.coherence_cohesion, f.lexical_resource, f.grammatical_range with
      | some fta, some fcc, some flr, some fgr =>
        .ok ⟨⟨ta, cc, lr, gr⟩, ⟨fta, fcc, flr, fgr⟩, c⟩
      | _, _, _, _ => .error "Invalid response format: missing feedback keys"
    | _, _, _, _ => .error "Invalid response format: missing score keys"
  | _, _, _ => .error "Invalid response format: missing required keys"

/-- `analyze_essay(essay_text, task_type)` (lines 84-200).  A validation
`ValueError` raised in the inner `try` is caught by the inner generic handler
(line 195) and re-raised as `ValueError("Invalid response format: " + str(e))`;
a JSON decode failure is re-raised as
`ValueError("Failed to parse GPT response as JSON")` (line 193); every error
then reaches the outer handler (line 198) and is re-raised as a plain
`Exception("Failed to analyze essay: " + str(e))`.  On success the corrections
gain highlight positions (line 190). -/
def analyze_essay (essay_text : List Char) (gpt : GptOutcome) : Except Err Analysis :=
  match gpt with
  | .transportErr m => .error (.exception ("Failed to analyze essay: " ++ m))
  | .parseErr =>
    .error (.exception "Failed to analyze essay: Failed to parse GPT response as JSON")
  | .ok r =>
    match validateResult r with
    | .error m => .error (.exception ("Failed to analyze essay: Invalid response format: " ++ m))
    | .ok a => .ok { a with corrections := find_text_positions essay_text a.corrections }

/-- A persisted WritingScore row (the fields set at lines 252-271). -/
structure WritingScore where
  id : ℕ
  user_id : ℕ
  task_type : List Char
  essay_text : List Char
  word_count : ℕ
  time_spent : Option ℚ
  task_achievement : ℚ
  coherence_cohesion : ℚ
  lexical_resource : ℚ
  grammatical_range : ℚ
  overall_score : ℚ
  word_count_penalty : ℚ
  time_penalty : ℚ
  adjusted_score : ℚ
  task_achievement_feedback : String
  coherence_cohesion_feedback : String
  lexical_resource_feedback : String
  grammatical_range_feedback : String
  corrections : Corrections
  created_at : ℕ
deriving DecidableEq, Repr

/-- A persisted CombinedWritingScore row (lines 321-326). -/
structure CombinedWritingScore where
  user_id : ℕ
  task1_score_id : ℕ
  task2_score_id : ℕ
  combined_score : ℚ
deriving DecidableEq, Repr

/-- The committed database state: the per-user credit ledger and the two
tables, plus the id/timestamp source for newly created rows. -/
structure DB where
  credits : ℕ → Option ℤ
  writing_scores : List WritingScore
  combined : List CombinedWritingScore
  next_id : ℕ
  now : ℕ

/-- `check_and_deduct_credits(user_id)` (lines 202-213); the decrement is
committed immediately (line 213). -/
def check_and_deduct_credits (user_id : ℕ) (db : DB) : Except Err DB :=
  match db.credits user_id with
  | none => .error (.valueError "User credits not found")
  | some c =>
    if c < CREDITS_PER_ANALYSIS then .error (.valueError "Insufficient credits")
    else .ok { db with credits := fun u =>
        if u = user_id then some (c - CREDITS_PER_ANALYSIS) else db.credits u }

/-- `query.filter_by(...).order_by(created_at.desc()).first()`: the row with
the greatest creation timestamp (first such row in insertion order on ties). -/
def mostRecent (l : List WritingScore) : Option WritingScore :=
  l.foldl (fun acc w =>
    match acc with
    | none => some w
    | some m => if w.created_at > m.created_at then some w else some m) none

/-- The query of lines 295-298: most recent task1 score of the user. -/
def task1Query (user_id : ℕ) (db : DB) : Option WritingScore :=
  mostRecent (db.writing_scores.filter fun w =>
    decide (w.user_id = user_id ∧ w.task_type = "task1".toList))

/-- The query of lines 300-303: most recent task2 score of the user. -/
def task2Query (user_id : ℕ) (db : DB) : Option WritingScore :=
  mostRecent (db.writing_scores.filter fun w =>
    decide (w.user_id = user_id ∧ w.task_type = "task2".toList))

/-- The existence query of lines 313-317: CombinedWritingScore rows matching
the exact (user, task1 record, task2 record) triple. -/
def pairFilter (user_id : ℕ) (s1 s2 : WritingScore) (l : List CombinedWritingScore) :
    List CombinedWritingScore :=
  l.filter fun c =>
    decide (c.user_id = user_id ∧ c.task1_score_id = s1.id ∧ c.task2_score_id = s2.id)

/-- `calculate_combined_score(user_id, new_score)` (lines 291-333); the
`new_score` argument is unused by the body, which re-reads both tables. -/
def calculate_combined_score (user_id : ℕ) (db : DB) : DB :=
  match task1Query user_id db, task2Query user_id db with
  | some task1_score, some task2_score =>
    let combined_score := pyRound1
      (task1_score.adjusted_score * (1/3) + task2_score.adjusted_score * (2/3))
    if pairFilter user_id task1_score task2_score db.combined = [] then
      { db with combined := db.combined ++
          [⟨user_id, task1_score.id, task2_score.id, combined_score⟩] }
    else db
  | _, _ => db

/-- Token counter for `len(essay_text.strip().split())` (line 227): the number
of maximal whitespace-free runs. -/
def countWordsAux : List Char → Bool → ℕ
  | [], _ => 0
  | c :: cs, inWord =>
    if c.isWhitespace then countWordsAux cs false
    else (if inWord then 0 else 1) + countWordsAux cs true

/-- `len(essay_text.strip().split())` (line 227). -/
def countWords (s : List Char) : ℕ := countWordsAux s false

/-- The request payload `data`: each of the two checked keys may be missing
(`None` data and an empty dict behave as all-keys-missing), and `time_spent`
is optional (line 224). -/
structure SubmissionData where
  essay_text : Option (List Char)
  task_type : Option (List Char)
  time_spent : Option ℚ
deriving DecidableEq, Repr

/-- The handler at lines 285-289: a `ValueError` is re-raised unchanged, any
other exception is wrapped as `Exception("Failed to score essay: " + str(e))`. -/
def wrapScoreError : Err → Err
  | .valueError m => .valueError m
  | .exception m => .exception ("Failed to score essay: " ++ m)

/-- The WritingScore record built at lines 236-271. -/
def buildWritingScore (user_id : ℕ) (essay_text task_type : List Char)
    (time_spent : Option ℚ) (word_count : ℕ) (analysis : Analysis)
    (id created_at : ℕ) : WritingScore :=
  let overall_score := calculate_overall_score
    [analysis.scores.task_achievement, analysis.scores.coherence_cohesion,
     analysis.scores.lexical_resource, analysis.scores.grammatical_range]
  let word_count_penalty := calculate_word_count_penalty word_count task_type
  let time_penalty := calculate_time_penalty time_spent task_type
  let adjusted_score := max 0.0 (overall_score - word_count_penalty - time_penalty)
  { id := id
    user_id := user_id
    task_type := task_type
    essay_text := essay_text
    word_count := word_count
    time_spent := time_spent
    task_achievement := analysis.scores.task_achievement
    coherence_cohesion := analysis.scores.coherence_cohesion
    lexical_resource := analysis.scores.lexical_resource
    grammatical_range := analysis.scores.grammatical_range
    overall_score := overall_score
    word_count_penalty := word_count_penalty
    time_penalty := time_penalty
    adjusted_score := adjusted_score
    task_achievement_feedback := analysis.feedback.task_achievement
    coherence_cohesion_feedback := analysis.feedback.coherence_cohesion
    lexical_resource_feedback := analysis.feedback.lexical_resource
    grammatical_range_feedback := analysis.feedback.grammatical_range
    corrections := analysis.corrections
    created_at := created_at }

/-- `score_essay(user_id, data)` (lines 215-289), with the external GPT call's
outcome passed in as `gpt`.  Returns the operation's result (the created
record, or the error propagated by the handler at lines 285-289) together with
the committed database state: the rollback at line 286 discards only
uncommitted changes, so each error site returns the state as of the last
commit. -/
def score_essay (user_id : ℕ) (data : Option SubmissionData) (gpt : GptOutcome)
    (db : DB) : Except Err WritingScore × DB :=
  match data with
  | none => (.error (.valueError "Missing required fields"), db)
  | some d =>
    match d.essay_text, d.task_type with
    | some essay_text, some task_type =>
      let time_spent := d.time_spent
      let word_count := countWords essay_text
      match check_and_deduct_credits user_id db with
      | .error e => (.error (wrapScoreError e), db)
      | .ok db1 =>
        match analyze_essay essay_text gpt with
        | .error e => (.error (wrapScoreError e), db1)
        | .ok analysis =>
          let writing_score := buildWritingScore user_id essay_text task_type
            time_spent word_count analysis db1.next_id db1.now
          let db2 : DB := { db1 with
            writing_scores := db1.writing_scores ++ [writing_score]
            next_id := db1.next_id + 1
            now := db1.now + 1 }
          let db3 := calculate_combined_score user_id db2
          (.ok writing_score, db3)
    | _, _ => (.error (.valueError "Missing required fields"), db)

/-- Evaluation of `pyRound1` when the scaled value rounds down. -/
lemma pyRound1_round_down (q : ℚ) (f : ℤ) (h1 : (f : ℚ) ≤ q * 10)
    (h2 : q * 10 - (f : ℚ) < 1/2) : pyRound1 q = (f : ℚ) / 10 := by
  have hf : ⌊q * 10⌋ = f := by
    rw [Int.floor_eq_iff]
    refine ⟨h1, ?_⟩
    linarith
  simp only [pyRound1, bankersRound]
  rw [hf, if_pos h2]

/-- Evaluation of `pyRound1` when the scaled value rounds up. -/
lemma pyRound1_round_up (q : ℚ) (f : ℤ) (h1 : (f : ℚ) ≤ q * 10)
    (h2 : q * 10 < (f : ℚ) + 1) (h3 : 1/2 < q * 10 - (f : ℚ)) :
    pyRound1 q = ((f : ℚ) + 1) / 10 := by
  have hf : ⌊q * 10⌋ = f := by
    rw [Int.floor_eq_iff]
    refine ⟨h1, ?_⟩
    linarith
  simp only [pyRound1, bankersRound]
  rw [hf, if_neg (by linarith), if_pos h3]
  push_cast
  ring

/-- The overall score of a four-element score list. -/
lemma cos_four (a b c d : ℚ) :
    calculate_overall_score [a, b, c, d] = pyRound1 ((a + b + c + d) / 4) := by
  unfold calculate_overall_score
  congr 1
  simp only [List.sum_cons, List.sum_nil, List.length_cons, List.length_nil]
  norm_num
  ring

/-- The spec's sample overall score. -/
lemma cos_sample : calculate_overall_score [6, 7, 6, 6.5] = 6.4 := by
  rw [cos_four]
  rw [pyRound1_round_up ((6 + 7 + 6 + 6.5) / 4) 63 (by norm_num) (by norm_num) (by norm_num)]
  norm_num

/-- The overall score stored by `buildWritingScore` is the rounded mean of the
four analysis sub-scores. -/
lemma buildWS_overall (u : ℕ) (et tt : List Char) (tsp : Option ℚ) (wc : ℕ)
    (a : Analysis) (i ca : ℕ) :
    (buildWritingScore u et tt tsp wc a i ca).overall_score
      = pyRound1 ((a.scores.task_achievement + a.scores.coherence_cohesion
          + a.scores.lexical_resource + a.scores.grammatical_range) / 4) := by
  show calculate_overall_score
      [a.scores.task_achievement, a.scores.coherence_cohesion,
       a.scores.lexical_resource, a.scores.grammatical_range] = _
  rw [cos_four]

/-- The adjusted score stored by `buildWritingScore` is the penalty-adjusted
overall score floored at 0. -/
lemma buildWS_adjusted (u : ℕ) (et tt : List Char) (tsp : Option ℚ) (wc : ℕ)
    (a : Analysis) (i ca : ℕ) :
    (buildWritingScore u et tt tsp wc a i ca).adjusted_score
      = max 0 ((buildWritingScore u et tt tsp wc a i ca).overall_score
          - (buildWritingScore u et tt tsp wc a i ca).word_count_penalty
          - (buildWritingScore u et tt tsp wc a i ca).time_penalty) := by
  have h00 : (0.0 : ℚ) = 0 := by norm_num
  show max 0.0 ((buildWritingScore u et tt tsp wc a i ca).overall_score
      - (buildWritingScore u et tt tsp wc a i ca).word_count_penalty
      - (buildWritingScore u et tt tsp wc a i ca).time_penalty) = _
  rw [h00]

/-- C4: For every four sub-scores and penalties, scoreEssay computes
overallScore as the arithmetic mean of the four sub-scores rounded to one
decimal place (for sub-scores [6,7,6,6.5] this is 6.4), and adjustedScore as
max(0, overallScore - wordCountPenalty - timePenalty), so adjustedScore is
never below 0 even when the penalties exceed the overall score. -/
theorem c4_overall_and_adjusted (user_id : ℕ) (data : Option SubmissionData)
    (gpt : GptOutcome) (db : DB) (ws : WritingScore)
    (h : (score_essay user_id data gpt db).1 = .ok ws) :
    ws.overall_score = pyRound1 ((ws.task_achievement + ws.coherence_cohesion
        + ws.lexical_resource + ws.grammatical_range) / 4) ∧
    ws.adjusted_score
      = max 0 (ws.overall_score - ws.word_count_penalty - ws.time_penalty) ∧
    0 ≤ ws.adjusted_score ∧
    calculate_overall_score [6, 7, 6, 6.5] = 6.4 := by
  cases data with
  | none => exact absurd h (by simp [score_essay])
  | some d =>
    obtain ⟨oet, ott, ots⟩ := d
    cases oet with
    | none => exact absurd h (by simp [score_essay])
    | some et =>
      cases ott with
      | none => exact absurd h (by simp [score_essay])
      | some tt =>
        simp only [score_essay] at h
        cases hc : check_and_deduct_credits user_id db with
        | error e => rw [hc] at h; exact absurd h (by simp)
        | ok db1 =>
          rw [hc] at h
          cases ha : analyze_essay et gpt with
          | error e => rw [ha] at h; exact absurd h (by simp)
          | ok a =>
            rw [ha] at h
            simp only [Except.ok.injEq] at h
            subst h
            refine ⟨?_, ?_, ?_, cos_sample⟩
            · exact buildWS_overall _ _ _ _ _ _ _ _
            · exact buildWS_adjusted _ _ _ _ _ _ _ _
            · rw [buildWS_adjusted]
              exact le_max_left 0 _

/-- Empty corrections dict used by the sample runs. -/
def sampleCorrections : Corrections := ⟨[], [], []⟩

/-- A well-formed parsed GPT response with sub-scores 6, 7, 6, 6.5. -/
def sampleRaw : RawResult :=
  { scores := some ⟨some 6, some 7, some 6, some 6.5⟩
    feedback := some ⟨some "fa", some "fb", some "fc", some "fd"⟩
    corrections := some sampleCorrections }

/-- A well-formed submission payload. -/
def sampleData : SubmissionData :=
  ⟨some "the cat sat on the mat".toList, some "task1".toList, none⟩

/-- A database state where user 0 holds 5 credits and the tables are empty. -/
def sampleDB : DB :=
  { credits := fun u => if u = 0 then some 5 else none
    writing_scores := []
    combined := []
    next_id := 1
    now := 1 }

/-- The validated analysis produced by `analyze_essay` on `sampleRaw`. -/
def sampleAnalysis : Analysis :=
  ⟨⟨6, 7, 6, 6.5⟩, ⟨"fa", "fb", "fc", "fd"⟩,
   find_text_positions "the cat sat on the mat".toList sampleCorrections⟩

/-- The record created by the sample successful run. -/
def sampleWS : WritingScore :=
  buildWritingScore 0 "the cat sat on the mat".toList "task1".toList none
    (countWords "the cat sat on the mat".toList) sampleAnalysis 1 1

/-- Witness for C4: a concrete successful run of the pipeline. -/
theorem c4_overall_and_adjusted_witness :
    sampleWS.overall_score = pyRound1 ((sampleWS.task_achievement
        + sampleWS.coherence_cohesion + sampleWS.lexical_resource
        + sampleWS.grammatical_range) / 4) ∧
    sampleWS.adjusted_score = max 0 (sampleWS.overall_score
        - sampleWS.word_count_penalty - sampleWS.time_penalty) ∧
    0 ≤ sampleWS.adjusted_score ∧
    calculate_overall_score [6, 7, 6, 6.5] = 6.4 :=
  c4_overall_and_adjusted 0 (some sampleData) (GptOutcome.ok sampleRaw) sampleDB
    sampleWS rfl

/-- When either variant is missing, recalculation is the identity. -/
lemma ccs_none (user_id : ℕ) (db : DB)
    (h : task1Query user_id db = none ∨ task2Query user_id db = none) :
    calculate_combined_score user_id db = db := by
  unfold calculate_combined_score
  rcases h with h | h
  · rw [h]
  · rw [h]
    cases task1Query user_id db <;> rfl

/-- When a row for the exact pair already exists, recalculation is the identity. -/
lemma ccs_existing (user_id : ℕ) (db : DB) (s1 s2 : WritingScore)
    (h1 : task1Query user_id db = some s1) (h2 : task2Query user_id db = some s2)
    (hex : ¬ (pairFilter user_id s1 s2 db.combined = [])) :
    calculate_combined_score user_id db = db := by
  unfold calculate_combined_score
  rw [h1, h2]
  show (if pairFilter user_id s1 s2 db.combined = [] then _ else db) = db
  rw [if_neg hex]

/-- When both variants exist and no row covers the pair, recalculation appends
exactly the weighted-combined row. -/
lemma ccs_combined_append (user_id : ℕ) (db : DB) (s1 s2 : WritingScore)
    (h1 : task1Query user_id db = some s1) (h2 : task2Query user_id db = some s2)
    (hex : pairFilter user_id s1 s2 db.combined = []) :
    (calculate_combined_score user_id db).combined
      = db.combined ++ [⟨user_id, s1.id, s2.id,
          pyRound1 (s1.adjusted_score * (1/3) + s2.adjusted_score * (2/3))⟩] := by
  unfold calculate_combined_score
  rw [h1, h2]
  show (if pairFilter user_id s1 s2 db.combined = [] then _ else db).combined = _
  rw [if_pos hex]

/-- C5: For every user with at least one scored essay of each task variant,
recalculate pairs the most recently created task1 and task2 records and
computes the combined score as
round(task1.adjustedScore * 1/3 + task2.adjustedScore * 2/3, 1) — for
adjusted scores 6.5 and 7.0 this is 6.8 — and when either variant is missing
it does nothing. -/
theorem c5_combined_value (user_id : ℕ) (db : DB) :
    ((task1Query user_id db = none ∨ task2Query user_id db = none) →
      calculate_combined_score user_id db = db) ∧
    (∀ s1 s2, task1Query user_id db = some s1 → task2Query user_id db = some s2 →
      pairFilter user_id s1 s2 db.combined = [] →
      (calculate_combined_score user_id db).combined
        = db.combined ++ [⟨user_id, s1.id, s2.id,
            pyRound1 (s1.adjusted_score * (1/3) + s2.adjusted_score * (2/3))⟩]) ∧
    pyRound1 ((6.5 : ℚ) * (1/3) + 7 * (2/3)) = 6.8 := by
  refine ⟨?_, ?_, ?_⟩
  · exact ccs_none user_id db
  · exact fun s1 s2 h1 h2 hex => ccs_combined_append user_id db s1 s2 h1 h2 hex
  · rw [pyRound1_round_down ((6.5 : ℚ) * (1/3) + 7 * (2/3)) 68 (by norm_num) (by norm_num)]
    norm_num

/-- A scored task1 essay with adjusted score 6.5, for user 7. -/
def sampleWS1 : WritingScore :=
  { id := 10, user_id := 7, task_type := "task1".toList, essay_text := []
    word_count := 150, time_spent := none
    task_achievement := 6, coherence_cohesion := 7
    lexical_resource := 6, grammatical_range := 7
    overall_score := 6.5, word_count_penalty := 0, time_penalty := 0
    adjusted_score := 6.5
    task_achievement_feedback := "", coherence_cohesion_feedback := ""
    lexical_resource_feedback := "", grammatical_range_feedback := ""
    corrections := ⟨[], [], []⟩, created_at := 1 }

/-- A scored task2 essay with adjusted score 7.0, for user 7. -/
def sampleWS2 : WritingScore :=
  { id := 11, user_id := 7, task_type := "task2".toList, essay_text := []
    word_count := 250, time_spent := none
    task_achievement := 7, coherence_cohesion := 7
    lexical_resource := 7, grammatical_range := 7
    overall_score := 7, word_count_penalty := 0, time_penalty := 0
    adjusted_score := 7
    task_achievement_feedback := "", coherence_cohesion_feedback := ""
    lexical_resource_feedback := "", grammatical_range_feedback := ""
    corrections := ⟨[], [], []⟩, created_at := 2 }

/-- A database state where user 7 has one scored essay of each variant and no
combined score yet. -/
def sampleDB2 : DB :=
  { credits := fun _ => some 5
    writing_scores := [sampleWS1, sampleWS2]
    combined := []
    next_id := 12
    now := 3 }

/-- Witness for C5: the concrete pair with adjusted scores 6.5 and 7.0. -/
theorem c5_combined_value_witness :
    (calculate_combined_score 7 sampleDB2).combined
      = sampleDB2.combined ++ [⟨7, sampleWS1.id, sampleWS2.id,
          pyRound1 (sampleWS1.adjusted_score * (1/3)
            + sampleWS2.adjusted_score * (2/3))⟩] ∧
    pyRound1 ((6.5 : ℚ) * (1/3) + 7 * (2/3)) = 6.8 :=
  ⟨(c5_combined_value 7 sampleDB2).2.1 sampleWS1 sampleWS2 rfl rfl rfl,
   (c5_combined_value 7 sampleDB2).2.2⟩

/-- `calculate_combined_score` never changes the writing-scores table. -/
lemma ccs_writing_scores (user_id : ℕ) (db : DB) :
    (calculate_combined_score user_id db).writing_scores = db.writing_scores := by
  unfold calculate_combined_score
  cases task1Query user_id db with
  | none => rfl
  | some s1 =>
    cases task2Query user_id db with
    | none => rfl
    | some s2 =>
      show (if pairFilter user_id s1 s2 db.combined = [] then _ else db).writing_scores = _
      split <;> rfl

/-- The task queries see through `calculate_combined_score`. -/
lemma queries_stable (user_id : ℕ) (db : DB) :
    task1Query user_id (calculate_combined_score user_id db) = task1Query user_id db ∧
    task2Query user_id (calculate_combined_score user_id db) = task2Query user_id db := by
  unfold task1Query task2Query
  rw [ccs_writing_scores]
  exact ⟨rfl, rfl⟩

/-- The new row matches its own pair filter. -/
lemma pairFilter_new_row (user_id : ℕ) (s1 s2 : WritingScore) (q : ℚ)
    (l : List CombinedWritingScore) :
    pairFilter user_id s1 s2 (l ++ [⟨user_id, s1.id, s2.id, q⟩])
      = pairFilter user_id s1 s2 l ++ [⟨user_id, s1.id, s2.id, q⟩] := by
  unfold pairFilter
  rw [List.filter_append]
  simp

/-- C6: recalculate is idempotent per (task1 record id, task2 record id) pair:
if a CombinedScore already exists for that exact pair it does nothing, so
running recalculate twice over the same underlying pair leaves exactly one
CombinedScore row, while a new pair produces a new CombinedScore rather than
updating the old one. -/
theorem c6_recalculate_idempotent (user_id : ℕ) (db : DB) :
    calculate_combined_score user_id (calculate_combined_score user_id db)
      = calculate_combined_score user_id db ∧
    (∀ s1 s2, task1Query user_id db = some s1 → task2Query user_id db = some s2 →
      (pairFilter user_id s1 s2 db.combined).length = 0 →
      (pairFilter user_id s1 s2
          (calculate_combined_score user_id
            (calculate_combined_score user_id db)).combined).length = 1 ∧
      (calculate_combined_score user_id db).combined = db.combined ++
        [⟨user_id, s1.id, s2.id,
          pyRound1 (s1.adjusted_score * (1/3) + s2.adjusted_score * (2/3))⟩]) := by
  have hidem : calculate_combined_score user_id (calculate_combined_score user_id db)
      = calculate_combined_score user_id db := by
    cases ht1 : task1Query user_id db with
    | none =>
      have e1 : calculate_combined_score user_id db = db := ccs_none user_id db (Or.inl ht1)
      rw [e1, e1]
    | some s1 =>
      cases ht2 : task2Query user_id db with
      | none =>
        have e1 : calculate_combined_score user_id db = db := ccs_none user_id db (Or.inr ht2)
        rw [e1, e1]
      | some s2 =>
        by_cases hex : pairFilter user_id s1 s2 db.combined = []
        · have e1 : (calculate_combined_score user_id db).combined
              = db.combined ++ [⟨user_id, s1.id, s2.id,
                  pyRound1 (s1.adjusted_score * (1/3) + s2.adjusted_score * (2/3))⟩] :=
            ccs_combined_append user_id db s1 s2 ht1 ht2 hex
          have ht1' : task1Query user_id (calculate_combined_score user_id db) = some s1 :=
            (queries_stable user_id db).1.trans ht1
          have ht2' : task2Query user_id (calculate_combined_score user_id db) = some s2 :=
            (queries_stable user_id db).2.trans ht2
          have hex' : ¬ (pairFilter user_id s1 s2
              (calculate_combined_score user_id db).combined = []) := by
            rw [e1, pairFilter_new_row]
            simp
          exact ccs_existing user_id (calculate_combined_score user_id db) s1 s2 ht1' ht2' hex'
        · have e1 : calculate_combined_score user_id db = db :=
            ccs_existing user_id db s1 s2 ht1 ht2 hex
          rw [e1, e1]
  refine ⟨hidem, fun s1 s2 ht1 ht2 hlen => ?_⟩
  have hex : pairFilter user_id s1 s2 db.combined = [] := List.length_eq_zero.mp hlen
  have e1 : (calculate_combined_score user_id db).combined = db.combined ++
      [⟨user_id, s1.id, s2.id,
        pyRound1 (s1.adjusted_score * (1/3) + s2.adjusted_score * (2/3))⟩] :=
    ccs_combined_append user_id db s1 s2 ht1 ht2 hex
  refine ⟨?_, e1⟩
  rw [hidem, e1, pairFilter_new_row, hex]
  rfl

/-- Witness for C6: a fresh pair is inserted once and a second run adds
nothing. -/
theorem c6_recalculate_idempotent_witness :
    (pairFilter 7 sampleWS1 sampleWS2
        (calculate_combined_score 7 (calculate_combined_score 7 sampleDB2)).combined).length
      = 1 ∧
    (calculate_combined_score 7 sampleDB2).combined = sampleDB2.combined ++
      [⟨7, sampleWS1.id, sampleWS2.id,
        pyRound1 (sampleWS1.adjusted_score * (1/3)
          + sampleWS2.adjusted_score * (2/3))⟩] :=
  (c6_recalculate_idempotent 7 sampleDB2).2 sampleWS1 sampleWS2 rfl rfl rfl

/-- The credit check succeeds exactly on a sufficient ledger entry, returning
the state with the committed decrement. -/
lemma check_and_deduct_ok (user_id : ℕ) (db : DB) (c : ℤ)
    (hc : db.credits user_id = some c) (hle : CREDITS_PER_ANALYSIS ≤ c) :
    check_and_deduct_credits user_id db
      = .ok { db with credits := fun u => if u = user_id then some (c - CREDITS_PER_ANALYSIS) else db.credits u } := by
  unfold check_and_deduct_credits
  rw [hc]
  show (if c < CREDITS_PER_ANALYSIS then _ else _) = _
  rw [if_neg (not_lt.mpr hle)]

/-- C7: scoreEssay checks and decrements the user's credit balance by 1 unit
before the analysis call, failing with InsufficientCreditsError when the
balance is below the cost and with CreditsNotFoundError when no ledger entry
exists for the user; the deduction is committed at that point and is not
refunded when a later step fails, so a failing analyzer call leaves the credit
decrement committed and no ScoredEssay record persisted. -/
theorem c7_credits (user_id : ℕ) (et tt : List Char) (ts : Option ℚ)
    (gpt : GptOutcome) (db : DB) :
    (db.credits user_id = none →
      score_essay user_id (some ⟨some et, some tt, ts⟩) gpt db
        = (.error (.valueError "User credits not found"), db)) ∧
    (∀ c : ℤ, db.credits user_id = some c → c < CREDITS_PER_ANALYSIS →
      score_essay user_id (some ⟨some et, some tt, ts⟩) gpt db
        = (.error (.valueError "Insufficient credits"), db)) ∧
    (∀ c : ℤ, ∀ e : Err, db.credits user_id = some c → CREDITS_PER_ANALYSIS ≤ c →
      analyze_essay et gpt = .error e →
      (score_essay user_id (some ⟨some et, some tt, ts⟩) gpt db).1
          = .error (wrapScoreError e) ∧
      (score_essay user_id (some ⟨some et, some tt, ts⟩) gpt db).2.credits user_id
          = some (c - CREDITS_PER_ANALYSIS) ∧
      (score_essay user_id (some ⟨some et, some tt, ts⟩) gpt db).2.writing_scores
          = db.writing_scores) := by
  refine ⟨fun h => ?_, fun c hc hlt => ?_, fun c e hc hle ha => ?_⟩
  · have hcd : check_and_deduct_credits user_id db
        = .error (.valueError "User credits not found") := by
      unfold check_and_deduct_credits
      rw [h]
    simp only [score_essay]
    rw [hcd]
    rfl
  · have hcd : check_and_deduct_credits user_id db
        = .error (.valueError "Insufficient credits") := by
      unfold check_and_deduct_credits
      rw [hc]
      show (if c < CREDITS_PER_ANALYSIS then _ else _) = _
      rw [if_pos hlt]
    simp only [score_essay]
    rw [hcd]
    rfl
  · have hcd := check_and_deduct_ok user_id db c hc hle
    refine ⟨?_, ?_, ?_⟩
    · simp only [score_essay]
      rw [hcd, ha]
    · simp only [score_essay]
      rw [hcd, ha]
      show (if user_id = user_id then some (c - CREDITS_PER_ANALYSIS)
          else db.credits user_id) = _
      rw [if_pos rfl]
    · simp only [score_essay]
      rw [hcd, ha]

/-- A database state with no credit ledger entry for any user. -/
def sampleDBNoCredits : DB :=
  { credits := fun _ => none, writing_scores := [], combined := []
    next_id := 1, now := 1 }

/-- A database state where every user has an exhausted credit balance. -/
def sampleDBPoor : DB :=
  { credits := fun _ => some 0, writing_scores := [], combined := []
    next_id := 1, now := 1 }

/-- Witness for C7: the three credit outcomes at concrete states. -/
theorem c7_credits_witness :
    score_essay 0 (some ⟨some [], some "task1".toList, none⟩)
        (GptOutcome.ok sampleRaw) sampleDBNoCredits
      = (.error (.valueError "User credits not found"), sampleDBNoCredits) ∧
    score_essay 0 (some ⟨some [], some "task1".toList, none⟩)
        (GptOutcome.ok sampleRaw) sampleDBPoor
      = (.error (.valueError "Insufficient credits"), sampleDBPoor) ∧
    (score_essay 0 (some ⟨some [], some "task1".toList, none⟩)
        (GptOutcome.transportErr "boom") sampleDB).1
      = .error (wrapScoreError (.exception "Failed to analyze essay: boom")) ∧
    (score_essay 0 (some ⟨some [], some "task1".toList, none⟩)
        (GptOutcome.transportErr "boom") sampleDB).2.credits 0
      = some (5 - CREDITS_PER_ANALYSIS) ∧
    (score_essay 0 (some ⟨some [], some "task1".toList, none⟩)
        (GptOutcome.transportErr "boom") sampleDB).2.writing_scores
      = sampleDB.writing_scores := by
  have h3 := (c7_credits 0 [] "task1".toList none (GptOutcome.transportErr "boom")
    sampleDB).2.2 5 (.exception "Failed to analyze essay: boom") rfl (by decide) rfl
  exact ⟨(c7_credits 0 [] "task1".toList none (GptOutcome.ok sampleRaw)
      sampleDBNoCredits).1 rfl,
    (c7_credits 0 [] "task1".toList none (GptOutcome.ok sampleRaw)
      sampleDBPoor).2.1 0 rfl (by decide),
    h3.1, h3.2.1, h3.2.2⟩

/-- Whether an operation result is a success (no exception raised). -/
def isOkResult (r : Except Err WritingScore) : Bool :=
  match r with
  | .ok _ => true
  | .error _ => false

/-- An error produced by the credit check carries one of the two credit
messages. -/
lemma check_and_deduct_error_msgs (user_id : ℕ) (db : DB) (e : Err)
    (h : check_and_deduct_credits user_id db = .error e) :
    e = .valueError "User credits not found" ∨ e = .valueError "Insufficient credits" := by
  unfold check_and_deduct_credits at h
  split at h
  · injection h with h'
    exact Or.inl h'.symm
  · split at h
    · injection h with h'
      exact Or.inr h'.symm
    · cases h

/-- Every error produced by the analyzer is a plain Exception. -/
lemma analyze_error_is_exception (et : List Char) (gpt : GptOutcome) (e : Err)
    (h : analyze_essay et gpt = .error e) : ∃ m, e = .exception m := by
  cases gpt with
  | transportErr m =>
    simp only [analyze_essay] at h
    injection h with h'
    exact ⟨_, h'.symm⟩
  | parseErr =>
    simp only [analyze_essay] at h
    injection h with h'
    exact ⟨_, h'.symm⟩
  | ok r =>
    simp only [analyze_essay] at h
    cases hv : validateResult r with
    | error m =>
      rw [hv] at h
      injection h with h'
      exact ⟨_, h'.symm⟩
    | ok a =>
      rw [hv] at h
      cases h

/-- C8 (amended): scoreEssay fails with InvalidInputError (ValueError "Missing
required fields") exactly when the submission data is absent/empty or lacks
the essay_text or task_type key, and it does so before any credits are
deducted or analysis is performed (the state is returned unchanged); a
present-but-empty essay text or an unrecognized task variant is not rejected
by this validation. -/
theorem c8_validation (user_id : ℕ) (gpt : GptOutcome) (db : DB) (d : SubmissionData) :
    score_essay user_id none gpt db
      = (.error (.valueError "Missing required fields"), db) ∧
    (d.essay_text = none ∨ d.task_type = none →
      score_essay user_id (some d) gpt db
        = (.error (.valueError "Missing required fields"), db)) ∧
    (∀ et tt, d.essay_text = some et → d.task_type = some tt →
      (score_essay user_id (some d) gpt db).1
        ≠ .error (.valueError "Missing required fields")) := by
  obtain ⟨oet, ott, ots⟩ := d
  refine ⟨rfl, fun h => ?_, fun et tt h1 h2 => ?_⟩
  · rcases h with h | h
    · simp only at h
      subst h
      rfl
    · simp only at h
      subst h
      cases oet <;> rfl
  · simp only at h1 h2
    subst h1
    subst h2
    cases hcd : check_and_deduct_credits user_id db with
    | error e =>
      simp only [score_essay]
      rw [hcd]
      rcases check_and_deduct_error_msgs user_id db e hcd with he | he <;>
        subst he <;> simp [wrapScoreError]
    | ok db1 =>
      cases ha : analyze_essay et gpt with
      | error e =>
        obtain ⟨m, hm⟩ := analyze_error_is_exception et gpt e ha
        subst hm
        simp only [score_essay]
        rw [hcd, ha]
        simp [wrapScoreError]
      | ok a =>
        simp only [score_essay]
        rw [hcd, ha]
        simp

/-- Witness for C8 (amended): concrete discharges of both implications. -/
theorem c8_validation_witness :
    score_essay 0 (some ⟨none, some "task1".toList, none⟩)
        (GptOutcome.ok sampleRaw) sampleDB
      = (.error (.valueError "Missing required fields"), sampleDB) ∧
    (score_essay 0 (some ⟨some [], some "task1".toList, none⟩)
        (GptOutcome.ok sampleRaw) sampleDB).1
      ≠ .error (.valueError "Missing required fields") :=
  ⟨(c8_validation 0 (GptOutcome.ok sampleRaw) sampleDB
      ⟨none, some "task1".toList, none⟩).2.1 (Or.inl rfl),
   (c8_validation 0 (GptOutcome.ok sampleRaw) sampleDB
      ⟨some [], some "task1".toList, none⟩).2.2 [] "task1".toList rfl rfl⟩

/-- C8 counterexample: a submission whose essay text is present but empty and
whose task variant is the unrecognized 'task3' is not rejected: scoring
succeeds (a credit is deducted and a record is produced) instead of failing
with InvalidInputError. -/
theorem c8_counterexample :
    isOkResult (score_essay 0 (some ⟨some [], some "task3".toList, none⟩)
        (GptOutcome.ok sampleRaw) sampleDB).1 = true ∧
    (score_essay 0 (some ⟨some [], some "task3".toList, none⟩)
        (GptOutcome.ok sampleRaw) sampleDB).2.credits 0 = some 4 :=
  ⟨rfl, rfl⟩

/-- C9 (amended): every analyzer failure — transport error, JSON parse
failure, or response-shape violation — surfaces as a plain Exception whose
message is "Failed to analyze essay: " followed by the detail (shape
violations carry "Invalid response format: " plus the message of the failing
check; parse failures carry "Failed to parse GPT response as JSON"); and the
scoring pipeline does not propagate these unchanged: it wraps them once more
as Exception("Failed to score essay: " + message). -/
theorem c9_analyzer_failure_wrapping (et : List Char) :
    (∀ m, analyze_essay et (.transportErr m)
        = .error (.exception ("Failed to analyze essay: " ++ m))) ∧
    analyze_essay et .parseErr
      = .error (.exception
          "Failed to analyze essay: Failed to parse GPT response as JSON") ∧
    (∀ r : RawResult, r.scores = none ∨ r.feedback = none ∨ r.corrections = none →
      analyze_essay et (.ok r) = .error (.exception
        "Failed to analyze essay: Invalid response format: Invalid response format: missing required keys")) ∧
    (∀ s : RawScores, ∀ f : RawFeedback, ∀ c : Corrections,
      s.task_achievement = none ∨ s.coherence_cohesion = none
        ∨ s.lexical_resource = none ∨ s.grammatical_range = none →
      analyze_essay et (.ok ⟨some s, some f, some c⟩) = .error (.exception
        "Failed to analyze essay: Invalid response format: Invalid response format: missing score keys")) ∧
    (∀ ta cc lr gr : ℚ, ∀ f : RawFeedback, ∀ c : Corrections,
      f.task_achievement = none ∨ f.coherence_cohesion = none
        ∨ f.lexical_resource = none ∨ f.grammatical_range = none →
      analyze_essay et (.ok ⟨some ⟨some ta, some cc, some lr, some gr⟩, some f, some c⟩)
        = .error (.exception
          "Failed to analyze essay: Invalid response format: Invalid response format: missing feedback keys")) ∧
    (∀ user_id : ℕ, ∀ ts : Option ℚ, ∀ tt : List Char, ∀ gpt : GptOutcome,
      ∀ db : DB, ∀ c : ℤ, ∀ m : String,
      db.credits user_id = some c → CREDITS_PER_ANALYSIS ≤ c →
      analyze_essay et gpt = .error (.exception m) →
      (score_essay user_id (some ⟨some et, some tt, ts⟩) gpt db).1
        = .error (.exception ("Failed to score essay: " ++ m))) := by
  refine ⟨fun m => rfl, rfl, ?_, ?_, ?_, ?_⟩
  · rintro ⟨rs, rf, rc⟩ h
    cases rs <;> cases rf <;> cases rc <;>
      first
        | rfl
        | (rcases h with h | h | h <;> simp at h)
  · intro s f c h
    obtain ⟨sa, sb, sc, sd⟩ := s
    cases sa <;> cases sb <;> cases sc <;> cases sd <;>
      first
        | rfl
        | (rcases h with h | h | h | h <;> simp at h)
  · intro ta cc lr gr f c h
    obtain ⟨fa, fb, fc, fd⟩ := f
    cases fa <;> cases fb <;> cases fc <;> cases fd <;>
      first
        | rfl
        | (rcases h with h | h | h | h <;> simp at h)
  · intro user_id ts tt gpt db c m hc hle ha
    have hcd := check_and_deduct_ok user_id db c hc hle
    simp only [score_essay]
    rw [hcd, ha]
    rfl

/-- Witness for C9 (amended): concrete failures of each kind. -/
theorem c9_analyzer_failure_wrapping_witness :
    analyze_essay [] (GptOutcome.transportErr "boom")
      = .error (.exception ("Failed to analyze essay: " ++ "boom")) ∧
    analyze_essay [] (GptOutcome.ok ⟨none, none, none⟩)
      = .error (.exception
        "Failed to analyze essay: Invalid response format: Invalid response format: missing required keys") ∧
    (score_essay 0 (some ⟨some [], some "task1".toList, none⟩)
        (GptOutcome.transportErr "boom") sampleDB).1
      = .error (.exception ("Failed to score essay: " ++ "Failed to analyze essay: boom")) :=
  ⟨(c9_analyzer_failure_wrapping []).1 "boom",
   (c9_analyzer_failure_wrapping []).2.2.1 ⟨none, none, none⟩ (Or.inl rfl),
   (c9_analyzer_failure_wrapping []).2.2.2.2.2 0 none "task1".toList
     (GptOutcome.transportErr "boom") sampleDB 5 "Failed to analyze essay: boom"
     rfl (by decide) rfl⟩

/-- C9 counterexample: on a response missing its `scores` key the analyzer
error is a plain generic Exception (the same kind as a transport failure), and
`score_essay` does not propagate it unchanged — the error it raises differs
from the analyzer's error. -/
theorem c9_counterexample :
    analyze_essay [] (GptOutcome.ok ⟨none, none, none⟩)
      = .error (.exception
        "Failed to analyze essay: Invalid response format: Invalid response format: missing required keys") ∧
    analyze_essay [] (GptOutcome.transportErr "the service timed out")
      = .error (.exception "Failed to analyze essay: the service timed out") ∧
    (score_essay 0 (some ⟨some [], some "task1".toList, none⟩)
        (GptOutcome.ok ⟨none, none, none⟩) sampleDB).1
      ≠ .error (.exception
        "Failed to analyze essay: Invalid response format: Invalid response format: missing required keys") := by
  refine ⟨rfl, rfl, ?_⟩
  have hx : (score_essay 0 (some ⟨some [], some "task1".toList, none⟩)
      (GptOutcome.ok ⟨none, none, none⟩) sampleDB).1
      = .error (.exception
        "Failed to score essay: Failed to analyze essay: Invalid response format: Invalid response format: missing required keys") := rfl
  rw [hx]
  intro hcontra
  injection hcontra with h'
  exact absurd h' (by decide)

end WritingCtrl
